import Mathlib

/-!
Shallow embedding of the request-construction and response-interpretation
layer of the Google Cloud Storage XML-API demo client
(gcs/gcs.py, gcs/gcs_xml.py, gcs/gcs_error.py).
-/

set_option autoImplicit false
set_option maxRecDepth 8192

namespace GcsModel

/-- Python truthiness of an optional string argument: None and the empty
string are falsy, every other string is truthy. -/
def pyTruthyStr : Option String → Bool
  | none => false
  | some s => !s.isEmpty

/-- Characters removed by Python str.strip: space, tab, newline, carriage
return, vertical tab, form feed. -/
def pyIsSpace (c : Char) : Bool :=
  c == ' ' || c == '\t' || c == '\n' || c == '\r' || c == '\x0b' || c == '\x0c'

/-- Python str.strip: drop surrounding whitespace from both ends. -/
def pyStrip (s : String) : String :=
  ⟨((s.data.dropWhile pyIsSpace).reverse.dropWhile pyIsSpace).reverse⟩

/-- A Python value passed as max_age_sec: an int, a float (modelled as a
rational number), or a str. -/
inductive PyVal where
  | int (n : Int)
  | float (q : Rat)
  | str (s : String)

/-- Python truthiness of a max_age_sec value: 0, 0.0 and the empty string
are falsy. -/
def pyTruthyVal : PyVal → Bool
  | .int n => n != 0
  | .float q => q != 0
  | .str s => !s.isEmpty

/-- Decimal digits of n left-padded with zeros to six digits, the fractional
part of a fixed-point rendering. -/
def sixDigits (n : Nat) : String :=
  let s := toString n
  String.mk (List.replicate (6 - s.length) '0') ++ s

/-- Fixed-point rendering of a nonnegative number of micro-units, six digits
after the decimal point. -/
def fixedOfMicro (n : Nat) : String :=
  toString (n / 1000000) ++ "." ++ sixDigits (n % 1000000)

/-- Python percent-f formatting of a float: fixed-point with six fractional
digits.  The float is modelled as a rational number; digits beyond the sixth
truncate, which agrees with percent-f on every value exact in six digits. -/
def formatFixed6 (q : Rat) : String :=
  if q < 0 then "-" ++ fixedOfMicro (((-q).num.toNat * 1000000) / (-q).den)
  else fixedOfMicro ((q.num.toNat * 1000000) / q.den)

/-- Text stored into the MaxAgeSec element (gcs_xml.py lines 429-435):
percent-d for an int, percent-f for a float, and the value itself verbatim
otherwise. -/
def maxAgeText : PyVal → String
  | .int n => toString n
  | .float q => formatFixed6 q
  | .str s => s

/-- An xml.etree.ElementTree element as used by this client: a tag, optional
text, and child elements (no attributes, no tails). -/
inductive Elem where
  | mk (tag : String) (text : Option String) (children : List Elem)

def Elem.tag : Elem → String
  | .mk t _ _ => t

def Elem.text : Elem → Option String
  | .mk _ tx _ => tx

def Elem.children : Elem → List Elem
  | .mk _ _ cs => cs

/-- Escape of one character of element text. -/
def escapeChar (c : Char) : List Char :=
  if c == '&' then "&amp;".data
  else if c == '<' then "&lt;".data
  else if c == '>' then "&gt;".data
  else [c]

/-- ElementTree escaping of character data: the ampersand replacement runs
first, then the two angle brackets; since each pattern is a single character
and no replacement reintroduces a later pattern, the composite is this
character-wise escape. -/
def escape_cdata (s : String) : String :=
  ⟨s.data.flatMap escapeChar⟩

/-- ElementTree truthiness of the text slot: absent or empty text does not
count as text when serializing. -/
def textTruthy : Option String → Bool
  | none => false
  | some t => !t.isEmpty

/-- Serialized text slot of an element. -/
def textPart : Option String → String
  | none => ""
  | some t => if t.isEmpty then "" else escape_cdata t

mutual
/-- ElementTree XML serialization of one element: the self-closing form when
there is neither text nor a child, otherwise open tag, text, children, close
tag. -/
def serializeElem : Elem → String
  | .mk tag text children =>
    if !textTruthy text && children.isEmpty then ("<" ++ tag) ++ " />"
    else
      (("<" ++ tag) ++ ">") ++
        ((textPart text ++ serializeChildren children) ++ (("</" ++ tag) ++ ">"))

/-- Serialization of a list of sibling elements, in order. -/
def serializeChildren : List Elem → String
  | [] => ""
  | e :: es => serializeElem e ++ serializeChildren es
end

/-- Result of xml.etree.ElementTree.tostring(root, "utf-8") under Python 2:
for the encodings utf-8 and us-ascii no XML declaration is emitted, only the
serialized element tree. -/
def tostring_utf8 (root : Elem) : String := serializeElem root

/-- The literal XML declaration prepended by GcsXml._xml_tostring. -/
def xmlDecl : String := "<?xml version=\"1.0\" encoding=\"UTF-8\"?>"

/-- GcsXml._xml_tostring (gcs_xml.py lines 439-450): the declaration
followed directly by the ElementTree serialization. -/
def xml_tostring (root : Elem) : String := xmlDecl ++ tostring_utf8 root

/-- Default request origin fixed in Gcs.init (gcs.py line 41). -/
def default_origin : String := "*"

/-- Default HTTP method fixed in Gcs.init (gcs.py line 42). -/
def default_method : String := "GET"

/-- Default response header fixed in Gcs.init (gcs.py line 43). -/
def default_response_header : String := "gcs-demo"

/-- Default max age fixed in Gcs.init (gcs.py line 44): the int 1800. -/
def default_max_age_sec : PyVal := .int 1800

/-- Default API version (gcs_xml.py line 29). -/
def DEFAULT_VERSION : String := "2"

/-- Sentinel status used for a host-resolution failure (gcs_xml.py
line 30). -/
def NOT_FOUND : Nat := 404

/-- Service root host name fixed in GcsXml.init (gcs_xml.py line 50). -/
def base_url : String := "storage.googleapis.com"

/-- Per-instance configuration of GcsXml: the project id and the API
version. -/
structure Gcs where
  project_id : String
  api_version : String

/-- GcsXml.init: the api_version argument defaults to DEFAULT_VERSION. -/
def GcsXml.init (project_id : String) (api_version : Option String) : Gcs :=
  ⟨project_id, api_version.getD DEFAULT_VERSION⟩

/-- A header mapping, modelled as an association list read through hget. -/
abbrev Headers := List (String × String)

/-- Lookup of a header key. -/
def hget : Headers → String → Option String
  | [], _ => none
  | p :: t, k => if p.1 = k then some p.2 else hget t k

/-- Python dict assignment viewed as a mapping update: bind the key to the
new value, shadowing any previous binding. -/
def hset (h : Headers) (k v : String) : Headers :=
  (k, v) :: h.filter (fun p => p.1 != k)

/-- The HTTP request a client method hands to the transport: full url,
method, headers and optional body. -/
structure Request where
  url : String
  method : String
  headers : Headers
  body : Option String

/-- Byte length of the optional request body. -/
def bodyLen : Option String → Nat
  | none => 0
  | some s => s.length

/-- Request-construction half of GcsXml._api_request (gcs_xml.py lines
452-480): method defaulting, unconditional project-id and api-version
headers, and the Content-Length rule. -/
def apiRequestBuild (g : Gcs) (url : String) (method : Option String)
    (headers : Headers) (body : Option String) : Request :=
  let m := match method with
    | none => default_method
    | some s => if s.isEmpty then default_method else s
  let hs := hset headers "x-goog-project-id" g.project_id
  let hs := hset hs "x-goog-api-version" g.api_version
  let hs :=
    if m = "POST" ∨ m = "PUT" ∨ pyTruthyStr body = true then
      if pyTruthyStr body then hset hs "Content-Length" (toString (bodyLen body))
      else hset hs "Content-Length" "0"
    else hs
  ⟨"http://" ++ url, m, hs, body⟩

/-- GcsXml._get_location_constraint_body (gcs_xml.py lines 374-389). -/
def get_location_constraint_body (location_constraint : String) : String :=
  xml_tostring (.mk "CreateBucketConfiguration" none
    [.mk "LocationConstraint" (some location_constraint) []])

/-- Origin child elements built by _get_cors_body: each entry stripped, a
blank entry replaced by the default origin. -/
def originElems (origins : List String) : List Elem :=
  origins.map fun origin =>
    .mk "Origin" (some (if (pyStrip origin).isEmpty then default_origin else pyStrip origin)) []

/-- Method child elements built by _get_cors_body: each entry stripped, a
blank entry replaced by the default method. -/
def methodElems (methods : List String) : List Elem :=
  methods.map fun m =>
    .mk "Method" (some (if (pyStrip m).isEmpty then default_method else pyStrip m)) []

/-- ResponseHeader child elements built by _get_cors_body: each entry
stripped, a blank entry replaced by the default response header. -/
def responseHeaderElems (response_headers : List String) : List Elem :=
  response_headers.map fun r =>
    .mk "ResponseHeader"
      (some (if (pyStrip r).isEmpty then default_response_header else pyStrip r)) []

/-- Element tree built by GcsXml._get_cors_body (gcs_xml.py lines
391-437). -/
def corsTree (origins methods response_headers : List String) (max_age_sec : PyVal) : Elem :=
  .mk "CorsConfig" none
    [.mk "Cors" none
      [.mk "Origins" none (originElems origins),
       .mk "Methods" none (methodElems methods),
       .mk "ResponseHeaders" none (responseHeaderElems response_headers),
       .mk "MaxAgeSec" (some (maxAgeText max_age_sec)) []]]

/-- GcsXml._get_cors_body: the serialized CORS configuration document. -/
def get_cors_body (origins methods response_headers : List String)
    (max_age_sec : PyVal) : String :=
  xml_tostring (corsTree origins methods response_headers max_age_sec)

/-- Whole-list defaulting in set_bucket_cors (gcs_xml.py lines 185-187): a
falsy, that is absent or empty, list argument is replaced by the one-element
default list. -/
def corsListArg (arg : Option (List String)) (dflt : String) : List String :=
  match arg with
  | none => [dflt]
  | some l => if l.isEmpty then [dflt] else l

/-- max_age_sec defaulting in set_bucket_cors (gcs_xml.py line 188): a falsy
value is replaced by the construction-time default. -/
def maxAgeArg (arg : Option PyVal) : PyVal :=
  match arg with
  | none => default_max_age_sec
  | some v => if pyTruthyVal v then v else default_max_age_sec

/-- Element tree serialized by set_bucket_cors after argument defaulting. -/
def set_bucket_cors_tree (origins methods response_headers : Option (List String))
    (max_age_sec : Option PyVal) : Elem :=
  corsTree (corsListArg origins default_origin) (corsListArg methods default_method)
    (corsListArg response_headers default_response_header) (maxAgeArg max_age_sec)

/-- Membership in the character class of the bucket-name regex under Python 2
defaults: ASCII letters, digits, underscore, hyphen, dot. -/
def isNameChar (c : Char) : Bool :=
  c.isAlphanum || c == '_' || c == '-' || c == '.'

/-- Last character of a string, as a list. -/
def lastCharOf : List Char → Option Char
  | [] => none
  | [c] => some c
  | _ :: c :: t => lastCharOf (c :: t)

/-- Python re.match of the anchored name-character regex (gcs_xml.py line
143): one or more name characters spanning the whole string, where the end
anchor also matches just before a single trailing newline. -/
def reMatchNameChars (s : List Char) : Bool :=
  let t := if lastCharOf s = some '\n' then s.dropLast else s
  !t.isEmpty && t.all isNameChar

/-- Python re.match of the start-anchored alphanumeric regex (gcs_xml.py
line 146): the first character is ASCII alphanumeric. -/
def reMatchStartAlnum (s : List Char) : Bool :=
  match s with
  | [] => false
  | c :: _ => c.isAlphanum

/-- Python re.match of the end-anchored alphanumeric regex (gcs_xml.py line
149): ignoring at most one trailing newline, the string is nonempty,
newline-free, and ends in an ASCII alphanumeric character. -/
def reMatchEndAlnum (s : List Char) : Bool :=
  let t := if lastCharOf s = some '\n' then s.dropLast else s
  !t.isEmpty && t.all (fun c => c != '\n') &&
    (match lastCharOf t with
     | some c => c.isAlphanum
     | none => false)

/-- ValueError message for the character-class rule (gcs_xml.py line 145). -/
def msg_chars : String := "Bucket names can only contain letters, numbers, -, _, or ."

/-- ValueError message for the start-character rule (gcs_xml.py line 148). -/
def msg_start : String := "Bucket names can only start with letters or numbers."

/-- ValueError message for the end-character rule (gcs_xml.py line 151); the
code appends the offending name. -/
def msg_end : String := "Bucket names can only end with letters or numbers. "

/-- ValueError message for the length rule (gcs_xml.py line 153). -/
def msg_length : String := "Bucket names must contain 3 to 63 letters."

/-- Bucket-name validation of insert_bucket (gcs_xml.py lines 143-153), in
source order: character class, start character, end character, length. -/
def validateBucketName (b : String) : Option String :=
  if !reMatchNameChars b.data then some msg_chars
  else if !reMatchStartAlnum b.data then some msg_start
  else if !reMatchEndAlnum b.data then some (msg_end ++ b)
  else if b.length < 3 || 63 < b.length then some msg_length
  else none

/-- One call to a GcsXml operation, with the arguments the claims range
over.  For insert_object the local file read and the mimetypes guess are
modelled as inputs: the file basename, the file contents, and the guessed
type and encoding. -/
inductive Operation where
  | get_buckets
  | get_bucket (bucket_name : String)
  | get_bucket_cors (bucket_name : String)
  | get_bucket_location (bucket_name : String)
  | insert_bucket (bucket_name : String) (acl location_constraint : Option String)
  | set_bucket_cors (bucket_name : String)
      (origins methods response_headers : Option (List String)) (max_age_sec : Option PyVal)
  | delete_bucket (bucket_name : String)
  | get_object (bucket_name object_name : String)
  | get_object_acls (bucket_name object_name : String)
  | get_object_metadata (bucket_name object_name : String)
  | insert_object (bucket_name file_basename file_contents : String)
      (guess_type guess_encoding object_name content_type content_encoding acl : Option String)
  | copy_object (original_bucket_name original_object_name new_bucket_name : String)
      (new_object_name acl : Option String)
  | delete_object (bucket_name object_name : String)

/-- Conditional header assignment: set the key only when the value is
truthy, modelling the guarded dict assignments of the operations. -/
def condSet (h : Headers) (key : String) (v : Option String) : Headers :=
  match v with
  | none => h
  | some t => if t.isEmpty then h else hset h key t

/-- Conditional canned-ACL assignment into an existing header dict. -/
def withAcl (h : Headers) (acl : Option String) : Headers :=
  condSet h "x-goog-acl" acl

/-- Headers built by the conditional canned-ACL assignment, starting from an
empty dict. -/
def aclHeaders (acl : Option String) : Headers :=
  withAcl [] acl

/-- Validation an operation performs before building its request: only
insert_bucket validates, against the bucket-naming rules. -/
def opValidation : Operation → Option String
  | .insert_bucket b _ _ => validateBucketName b
  | _ => none

/-- Url, before the scheme prefix, each operation passes to _api_request,
format strings expanded; for insert_object and copy_object a falsy object
name falls back to the source name. -/
def opUrl : Operation → String
  | .get_buckets => base_url
  | .get_bucket b => b ++ "." ++ base_url
  | .get_bucket_cors b => b ++ "." ++ base_url ++ "/?cors"
  | .get_bucket_location b => b ++ "." ++ base_url ++ "/?location"
  | .insert_bucket b _ _ => b ++ "." ++ base_url
  | .set_bucket_cors b _ _ _ _ => b ++ "." ++ base_url ++ "/?cors"
  | .delete_bucket b => b ++ "." ++ base_url
  | .get_object b o => b ++ "." ++ base_url ++ "/" ++ o
  | .get_object_acls b o => b ++ "." ++ base_url ++ "/" ++ o ++ "?acl"
  | .get_object_metadata b o => b ++ "." ++ base_url ++ "/" ++ o
  | .insert_object b base _ _ _ oname _ _ _ =>
    b ++ "." ++ base_url ++ "/" ++
      (match oname with
       | none => base
       | some o => if o.isEmpty then base else o)
  | .copy_object _ oo nb no _ =>
    nb ++ "." ++ base_url ++ "/" ++
      (match no with
       | none => oo
       | some n => if n.isEmpty then oo else n)
  | .delete_object b o => b ++ "." ++ base_url ++ "/" ++ o

/-- HTTP method argument each operation passes to _api_request; none stands
for the omitted argument that _api_request replaces by the default. -/
def opMethod : Operation → Option String
  | .get_buckets => none
  | .get_bucket _ => none
  | .get_bucket_cors _ => none
  | .get_bucket_location _ => none
  | .insert_bucket _ _ _ => some "PUT"
  | .set_bucket_cors _ _ _ _ _ => some "PUT"
  | .delete_bucket _ => some "DELETE"
  | .get_object _ _ => none
  | .get_object_acls _ _ => none
  | .get_object_metadata _ _ => some "HEAD"
  | .insert_object _ _ _ _ _ _ _ _ _ => some "PUT"
  | .copy_object _ _ _ _ _ => some "PUT"
  | .delete_object _ _ => some "DELETE"

/-- Headers each operation passes to _api_request: the conditional canned
ACL for insert_bucket, the content headers and ACL for insert_object, the
copy-source header and ACL for copy_object, an empty dict otherwise. -/
def opHeaders : Operation → Headers
  | .insert_bucket _ acl _ => aclHeaders acl
  | .insert_object _ _ _ gt ge _ ct ce acl =>
    let ctce :=
      if !pyTruthyStr ct || !pyTruthyStr ce then
        ((if pyTruthyStr ct then ct else gt), (if pyTruthyStr ce then ce else ge))
      else (ct, ce)
    let hs : Headers := []
    let hs := condSet hs "Content-Type" ctce.1
    let hs := condSet hs "Content-Encoding" ctce.2
    withAcl hs acl
  | .copy_object ob oo _ _ acl =>
    withAcl (hset [] "x-goog-copy-source" ("/" ++ ob ++ "/" ++ oo)) acl
  | _ => []

/-- Body each operation passes to _api_request: the conditional location
constraint document for insert_bucket, the CORS document for
set_bucket_cors, the file contents for insert_object, nothing otherwise. -/
def opBody : Operation → Option String
  | .insert_bucket _ _ lc =>
    (match lc with
     | none => none
     | some l =>
       if !l.isEmpty && (l == "EU" || l == "US") then some (get_location_constraint_body l)
       else none)
  | .set_bucket_cors _ origins methods response_headers max_age_sec =>
    some (xml_tostring (set_bucket_cors_tree origins methods response_headers max_age_sec))
  | .insert_object _ _ contents _ _ _ _ _ _ => some contents
  | _ => none

/-- The request each GcsXml operation hands to the transport, with the
_api_request header injection applied; an insert_bucket validation failure
surfaces as the ValueError message instead. -/
def operationRequest (g : Gcs) (op : Operation) : Except String Request :=
  match opValidation op with
  | some m => .error m
  | none => .ok (apiRequestBuild g (opUrl op) (opMethod op) (opHeaders op) (opBody op))

/-- Status, reason and headers of an httplib2 response. -/
structure HttpResponse where
  status : Nat
  reason : String
  headers : Headers

/-- Result of one transport round trip: a response together with its
content, or the host-resolution failure httplib2 raises as
ServerNotFoundError. -/
inductive TransportOutcome where
  | resp (r : HttpResponse) (content : String)
  | serverNotFound

/-- Errors surfaced by an operation: the local ValueError from bucket-name
validation, or a GcsError carrying status and reason. -/
inductive OpError where
  | valueError (msg : String)
  | gcsError (status : Nat) (message : String)

/-- Successful result of an operation: the response content, or for
get_object_metadata the response envelope. -/
inductive OpResult where
  | content (s : String)
  | envelope (r : HttpResponse)

/-- Whether an operation is the metadata retrieval, the one operation that
returns the response envelope instead of the content. -/
def Operation.isMetadata : Operation → Bool
  | .get_object_metadata _ _ => true
  | _ => false

/-- Full run of one operation: build the request, send it through the
transport, and interpret the outcome (gcs_xml.py lines 478-487): a
host-resolution failure becomes GcsError NOT_FOUND, a status of at least 300
becomes GcsError with that status and reason, and otherwise the content is
returned, or for get_object_metadata the response. -/
def runOperation (g : Gcs) (op : Operation) (transport : Request → TransportOutcome) :
    Except OpError OpResult :=
  match operationRequest g op with
  | .error m => .error (.valueError m)
  | .ok req =>
    match transport req with
    | .serverNotFound => .error (.gcsError NOT_FOUND "Server not found.")
    | .resp r c =>
      if 300 ≤ r.status then .error (.gcsError r.status r.reason)
      else .ok (if op.isMetadata then .envelope r else .content c)

/-- First child with the given tag. -/
def findChild (tag : String) (e : Elem) : Option Elem :=
  e.children.find? (fun c => c.tag == tag)

/-- Children of the Origins element of a CORS document. -/
def corsOriginsOf (e : Elem) : Option (List Elem) :=
  ((findChild "Cors" e).bind (findChild "Origins")).map Elem.children

/-- Children of the Methods element of a CORS document. -/
def corsMethodsOf (e : Elem) : Option (List Elem) :=
  ((findChild "Cors" e).bind (findChild "Methods")).map Elem.children

/-- Children of the ResponseHeaders element of a CORS document. -/
def corsResponseHeadersOf (e : Elem) : Option (List Elem) :=
  ((findChild "Cors" e).bind (findChild "ResponseHeaders")).map Elem.children

/-- Text of the MaxAgeSec element of a CORS document. -/
def maxAgeTextOf (e : Elem) : Option String :=
  ((findChild "Cors" e).bind (findChild "MaxAgeSec")).bind Elem.text

/-- Modelled from the spec: MaxAgeSec rendering dispatched on the value,
with integer formatting for whole numbers, fixed-point formatting for
fractional values, and verbatim text otherwise.  This is the comparator for
the by-value reading of the rendering rule. -/
def specRenderMaxAge : PyVal → String
  | .int n => toString n
  | .float q => if q.den = 1 then toString q.num else formatFixed6 q
  | .str s => s

/-- Naming sub-rule from the spec invariant: every character is a letter, a
digit, a hyphen, an underscore or a dot. -/
def specCharsRule (s : String) : Bool := s.data.all isNameChar

/-- Naming sub-rule from the spec invariant: the first character is
alphanumeric. -/
def specStartRule (s : String) : Bool :=
  match s.data with
  | [] => false
  | c :: _ => c.isAlphanum

/-- Naming sub-rule from the spec invariant: the last character is
alphanumeric. -/
def specEndRule (s : String) : Bool :=
  match lastCharOf s.data with
  | some c => c.isAlphanum
  | none => false

/-- Naming sub-rule from the spec invariant: the length is between 3 and
63. -/
def specLengthRule (s : String) : Bool := 3 ≤ s.length && s.length ≤ 63

theorem hget_filter_ne (h : Headers) (k k' : String) (hne : k' ≠ k) :
    hget (h.filter (fun p => p.1 != k)) k' = hget h k' := by
  induction h with
  | nil => rfl
  | cons p t ih =>
    by_cases hp : p.1 = k
    · have hf : (p.1 != k) = false := by simp [hp]
      have hne2 : p.1 ≠ k' := by rw [hp]; exact fun hh => hne hh.symm
      simp only [List.filter_cons, hf, Bool.false_eq_true, if_false, ih, hget, hne2]
    · have hf : (p.1 != k) = true := by simp [hp]
      simp only [List.filter_cons, hf, if_true, hget, ih]

theorem hget_hset (h : Headers) (k v k' : String) :
    hget (hset h k v) k' = if k' = k then some v else hget h k' := by
  unfold hset
  by_cases hk : k' = k
  · subst hk; simp [hget]
  · rw [if_neg hk]
    simp only [hget]
    rw [if_neg (fun hh => hk hh.symm)]
    exact hget_filter_ne _ _ _ hk

theorem hget_condSet_ne (h : Headers) (key : String) (v : Option String) (k : String)
    (hk : k ≠ key) : hget (condSet h key v) k = hget h k := by
  cases v with
  | none => rfl
  | some t =>
    show hget (if t.isEmpty then h else hset h key t) k = hget h k
    by_cases ht : t.isEmpty
    · rw [if_pos ht]
    · rw [if_neg ht, hget_hset, if_neg hk]

theorem hget_withAcl_ne (h : Headers) (acl : Option String) (k : String)
    (hk : k ≠ "x-goog-acl") : hget (withAcl h acl) k = hget h k :=
  hget_condSet_ne h _ acl k hk

theorem hget_aclHeaders_ne (acl : Option String) (k : String)
    (hk : k ≠ "x-goog-acl") : hget (aclHeaders acl) k = none :=
  hget_withAcl_ne [] acl k hk

theorem apiRequestBuild_url (g : Gcs) (url : String) (m : Option String)
    (hs : Headers) (b : Option String) :
    (apiRequestBuild g url m hs b).url = "http://" ++ url := rfl

theorem apiRequestBuild_body (g : Gcs) (url : String) (m : Option String)
    (hs : Headers) (b : Option String) :
    (apiRequestBuild g url m hs b).body = b := rfl

theorem apiRequestBuild_method (g : Gcs) (url : String) (m : Option String)
    (hs : Headers) (b : Option String) :
    (apiRequestBuild g url m hs b).method =
      (match m with
       | none => default_method
       | some s => if s.isEmpty then default_method else s) := rfl

theorem apiRequestBuild_project_id (g : Gcs) (url : String) (m : Option String)
    (hs : Headers) (b : Option String) :
    hget (apiRequestBuild g url m hs b).headers "x-goog-project-id" = some g.project_id := by
  unfold apiRequestBuild
  dsimp only
  split
  · split <;>
      rw [hget_hset, if_neg (by decide), hget_hset, if_neg (by decide), hget_hset, if_pos rfl]
  · rw [hget_hset, if_neg (by decide), hget_hset, if_pos rfl]

theorem apiRequestBuild_api_version (g : Gcs) (url : String) (m : Option String)
    (hs : Headers) (b : Option String) :
    hget (apiRequestBuild g url m hs b).headers "x-goog-api-version" = some g.api_version := by
  unfold apiRequestBuild
  dsimp only
  split
  · split <;> rw [hget_hset, if_neg (by decide), hget_hset, if_pos rfl]
  · rw [hget_hset, if_pos rfl]

theorem operationRequest_ok {g : Gcs} {op : Operation} {req : Request}
    (h : operationRequest g op = .ok req) :
    opValidation op = none ∧
      req = apiRequestBuild g (opUrl op) (opMethod op) (opHeaders op) (opBody op) := by
  unfold operationRequest at h
  cases hv : opValidation op with
  | some m => rw [hv] at h; cases h
  | none => rw [hv] at h; exact ⟨rfl, (Except.ok.inj h).symm⟩

/-- C8: every request sent by any operation carries the project-id header
with the configured project id and the api-version header with the
configured version, and the version defaults to the string 2 at
construction. -/
theorem C8_headers (g : Gcs) (op : Operation) (req : Request)
    (h : operationRequest g op = .ok req) :
    hget req.headers "x-goog-project-id" = some g.project_id ∧
      hget req.headers "x-goog-api-version" = some g.api_version ∧
      (∀ pid, (GcsXml.init pid none).api_version = "2") := by
  obtain ⟨-, rfl⟩ := operationRequest_ok h
  exact ⟨apiRequestBuild_project_id _ _ _ _ _, apiRequestBuild_api_version _ _ _ _ _,
    fun _ => rfl⟩

theorem hget_opHeaders_content_length (op : Operation) :
    hget (opHeaders op) "Content-Length" = none := by
  cases op with
  | insert_bucket b acl lc => exact hget_aclHeaders_ne acl _ (by decide)
  | insert_object b base contents gt ge oname ct ce acl =>
    unfold opHeaders
    dsimp only
    rw [hget_withAcl_ne _ _ _ (by decide), hget_condSet_ne _ _ _ _ (by decide),
      hget_condSet_ne _ _ _ _ (by decide)]
    rfl
  | copy_object ob oo nb no acl =>
    unfold opHeaders
    rw [hget_withAcl_ne _ _ _ (by decide), hget_hset, if_neg (by decide)]
    rfl
  | _ => rfl

theorem apiRequestBuild_content_length (g : Gcs) (url : String) (m : Option String)
    (hs : Headers) (b : Option String) (h0 : hget hs "Content-Length" = none) :
    (pyTruthyStr b = true →
      hget (apiRequestBuild g url m hs b).headers "Content-Length" =
        some (toString (bodyLen b))) ∧
    (((apiRequestBuild g url m hs b).method = "POST" ∨
        (apiRequestBuild g url m hs b).method = "PUT") → pyTruthyStr b = false →
      hget (apiRequestBuild g url m hs b).headers "Content-Length" = some "0") ∧
    ((apiRequestBuild g url m hs b).method ≠ "POST" →
        (apiRequestBuild g url m hs b).method ≠ "PUT" → pyTruthyStr b = false →
      hget (apiRequestBuild g url m hs b).headers "Content-Length" = none) := by
  have hbase : hget (hset (hset hs "x-goog-project-id" g.project_id)
      "x-goog-api-version" g.api_version) "Content-Length" = none := by
    rw [hget_hset, if_neg (by decide), hget_hset, if_neg (by decide)]
    exact h0
  unfold apiRequestBuild
  dsimp only
  refine ⟨fun hb => ?_, fun hm hb => ?_, fun hm1 hm2 hb => ?_⟩
  · rw [if_pos (Or.inr (Or.inr hb)), if_pos hb, hget_hset, if_pos rfl]
  · rw [if_pos (hm.imp id Or.inl), if_neg (by rw [hb]; exact Bool.false_ne_true),
      hget_hset, if_pos rfl]
  · rw [if_neg, hbase]
    rintro (hc | hc | hc)
    · exact hm1 hc
    · exact hm2 hc
    · rw [hb] at hc; exact Bool.false_ne_true hc

theorem hget_apiRequestBuild_other (g : Gcs) (url : String) (m : Option String)
    (hs : Headers) (b : Option String) (k : String)
    (h1 : k ≠ "x-goog-project-id") (h2 : k ≠ "x-goog-api-version")
    (h3 : k ≠ "Content-Length") :
    hget (apiRequestBuild g url m hs b).headers k = hget hs k := by
  unfold apiRequestBuild
  dsimp only
  split
  · split <;> rw [hget_hset, if_neg h3, hget_hset, if_neg h2, hget_hset, if_neg h1]
  · rw [hget_hset, if_neg h2, hget_hset, if_neg h1]

/-- C6: on every request actually sent, the Content-Length header equals the
exact byte length of a truthy body, equals the string 0 for a POST or PUT
request without a truthy body, and is absent for other methods without a
body. -/
theorem C6_content_length (g : Gcs) (op : Operation) (req : Request)
    (h : operationRequest g op = .ok req) :
    (pyTruthyStr req.body = true →
      hget req.headers "Content-Length" = some (toString (bodyLen req.body))) ∧
    ((req.method = "POST" ∨ req.method = "PUT") → pyTruthyStr req.body = false →
      hget req.headers "Content-Length" = some "0") ∧
    (req.method ≠ "POST" → req.method ≠ "PUT" → pyTruthyStr req.body = false →
      hget req.headers "Content-Length" = none) := by
  obtain ⟨-, rfl⟩ := operationRequest_ok h
  rw [apiRequestBuild_body]
  exact apiRequestBuild_content_length g _ _ _ _ (hget_opHeaders_content_length op)

theorem C6_content_length_witness :
    (pyTruthyStr (some "hello") = true ∧
      hget (apiRequestBuild ⟨"p", "2"⟩ (opUrl (.insert_object "b" "f.txt" "hello" none none none none none none))
          (some "PUT") (opHeaders (.insert_object "b" "f.txt" "hello" none none none none none none))
          (some "hello")).headers "Content-Length" = some "5") ∧
    (hget (apiRequestBuild ⟨"p", "2"⟩ (opUrl (.delete_bucket "b"))
        (some "DELETE") [] none).headers "Content-Length" = none) ∧
    (hget (apiRequestBuild ⟨"p", "2"⟩ (opUrl (.copy_object "a" "o" "b" none none))
        (some "PUT") (opHeaders (.copy_object "a" "o" "b" none none)) none).headers
      "Content-Length" = some "0") := by
  refine ⟨⟨rfl, ?_⟩, ?_, ?_⟩
  · exact (C6_content_length ⟨"p", "2"⟩ (.insert_object "b" "f.txt" "hello" none none none none none none)
      _ rfl).1 rfl
  · exact (C6_content_length ⟨"p", "2"⟩ (.delete_bucket "b") _ rfl).2.2 (by decide) (by decide) rfl
  · exact (C6_content_length ⟨"p", "2"⟩ (.copy_object "a" "o" "b" none none) _ rfl).2.1
      (Or.inr rfl) rfl

theorem C8_headers_witness :
    hget ((apiRequestBuild ⟨"proj", "2"⟩ base_url none [] none).headers) "x-goog-project-id" =
        some "proj" ∧
      hget ((apiRequestBuild ⟨"proj", "2"⟩ base_url none [] none).headers) "x-goog-api-version" =
        some "2" ∧
      (∀ pid, (GcsXml.init pid none).api_version = "2") :=
  C8_headers ⟨"proj", "2"⟩ .get_buckets (apiRequestBuild ⟨"proj", "2"⟩ base_url none [] none) rfl

/-- C7: every copy_object request carries the copy-source header equal to
slash, source bucket, slash, source object; uses method PUT and no body;
and when no destination object name is given the request url ends in the
source object name. -/
theorem C7_copy (g : Gcs) (ob oo nb : String) (no acl : Option String) (req : Request)
    (h : operationRequest g (.copy_object ob oo nb no acl) = .ok req) :
    hget req.headers "x-goog-copy-source" = some ("/" ++ ob ++ "/" ++ oo) ∧
    req.method = "PUT" ∧
    req.body = none ∧
    (no = none → req.url = "http://" ++ (nb ++ "." ++ base_url ++ "/" ++ oo)) := by
  obtain ⟨-, rfl⟩ := operationRequest_ok h
  refine ⟨?_, rfl, rfl, ?_⟩
  · rw [hget_apiRequestBuild_other _ _ _ _ _ _ (by decide) (by decide) (by decide)]
    show hget (withAcl (hset [] "x-goog-copy-source" ("/" ++ ob ++ "/" ++ oo)) acl)
      "x-goog-copy-source" = _
    rw [hget_withAcl_ne _ _ _ (by decide), hget_hset, if_pos rfl]
  · rintro rfl
    rfl

theorem C7_copy_witness :
    hget (apiRequestBuild ⟨"p", "2"⟩ (opUrl (.copy_object "a" "o" "b" none none))
        (opMethod (.copy_object "a" "o" "b" none none))
        (opHeaders (.copy_object "a" "o" "b" none none))
        (opBody (.copy_object "a" "o" "b" none none))).headers "x-goog-copy-source" =
      some "/a/o" ∧
    (apiRequestBuild ⟨"p", "2"⟩ (opUrl (.copy_object "a" "o" "b" none none))
        (opMethod (.copy_object "a" "o" "b" none none))
        (opHeaders (.copy_object "a" "o" "b" none none))
        (opBody (.copy_object "a" "o" "b" none none))).method = "PUT" ∧
    (apiRequestBuild ⟨"p", "2"⟩ (opUrl (.copy_object "a" "o" "b" none none))
        (opMethod (.copy_object "a" "o" "b" none none))
        (opHeaders (.copy_object "a" "o" "b" none none))
        (opBody (.copy_object "a" "o" "b" none none))).body = none ∧
    (apiRequestBuild ⟨"p", "2"⟩ (opUrl (.copy_object "a" "o" "b" none none))
        (opMethod (.copy_object "a" "o" "b" none none))
        (opHeaders (.copy_object "a" "o" "b" none none))
        (opBody (.copy_object "a" "o" "b" none none))).url =
      "http://b.storage.googleapis.com/o" := by
  have h := C7_copy ⟨"p", "2"⟩ "a" "o" "b" none none _ rfl
  exact ⟨h.1, h.2.1, h.2.2.1, h.2.2.2 rfl⟩

/-- C9: an insert_bucket request carries the serialized location-constraint
document as its body exactly when the location constraint argument is the
string US or the string EU, and no body otherwise. -/
theorem C9_location (g : Gcs) (b : String) (acl lc : Option String) (req : Request)
    (h : operationRequest g (.insert_bucket b acl lc) = .ok req) :
    (lc = some "US" → req.body = some (get_location_constraint_body "US")) ∧
    (lc = some "EU" → req.body = some (get_location_constraint_body "EU")) ∧
    (lc ≠ some "US" → lc ≠ some "EU" → req.body = none) := by
  obtain ⟨-, rfl⟩ := operationRequest_ok h
  rw [apiRequestBuild_body]
  refine ⟨?_, ?_, ?_⟩
  · rintro rfl; rfl
  · rintro rfl; rfl
  · intro h1 h2
    cases lc with
    | none => rfl
    | some l =>
      show (if (!l.isEmpty && (l == "EU" || l == "US")) = true
        then some (get_location_constraint_body l) else none) = none
      have hE : (l == "EU") = false := beq_eq_false_iff_ne.mpr fun hh => h2 (by rw [hh])
      have hU : (l == "US") = false := beq_eq_false_iff_ne.mpr fun hh => h1 (by rw [hh])
      rw [hE, hU]
      simp

theorem C9_location_witness :
    (apiRequestBuild ⟨"p", "2"⟩ (opUrl (.insert_bucket "abc" none (some "US")))
        (opMethod (.insert_bucket "abc" none (some "US")))
        (opHeaders (.insert_bucket "abc" none (some "US")))
        (opBody (.insert_bucket "abc" none (some "US")))).body =
      some (get_location_constraint_body "US") ∧
    (apiRequestBuild ⟨"p", "2"⟩ (opUrl (.insert_bucket "abc" none (some "ASIA")))
        (opMethod (.insert_bucket "abc" none (some "ASIA")))
        (opHeaders (.insert_bucket "abc" none (some "ASIA")))
        (opBody (.insert_bucket "abc" none (some "ASIA")))).body = none :=
  ⟨(C9_location ⟨"p", "2"⟩ "abc" none (some "US") _ rfl).1 rfl,
   (C9_location ⟨"p", "2"⟩ "abc" none (some "ASIA") _ rfl).2.2 (by decide) (by decide)⟩

/-- C2: for every operation call, a host-resolution failure of the transport
yields GcsError 404 with reason exactly Server not found, any response with
status at least 300 yields GcsError with that literal status and reason, and
a response below 300 succeeds with the response content, except that
get_object_metadata returns the response envelope instead. -/
theorem C2_interpret (g : Gcs) (op : Operation) (transport : Request → TransportOutcome)
    (req : Request) (h : operationRequest g op = .ok req) :
    (transport req = .serverNotFound →
      runOperation g op transport = .error (.gcsError 404 "Server not found.")) ∧
    (∀ r c, transport req = .resp r c → 300 ≤ r.status →
      runOperation g op transport = .error (.gcsError r.status r.reason)) ∧
    (∀ r c, transport req = .resp r c → r.status < 300 → op.isMetadata = false →
      runOperation g op transport = .ok (.content c)) ∧
    (∀ r c, transport req = .resp r c → r.status < 300 → op.isMetadata = true →
      runOperation g op transport = .ok (.envelope r)) := by
  unfold runOperation
  rw [h]
  dsimp only
  refine ⟨fun ht => ?_, fun r c ht hs => ?_, fun r c ht hs hm => ?_,
    fun r c ht hs hm => ?_⟩
  · rw [ht]
    rfl
  · rw [ht]
    dsimp only
    rw [if_pos hs]
  · rw [ht]
    dsimp only
    rw [if_neg (Nat.not_le.mpr hs), hm]
    rfl
  · rw [ht]
    dsimp only
    rw [if_neg (Nat.not_le.mpr hs), hm]
    rfl

theorem C2_interpret_witness :
    runOperation ⟨"p", "2"⟩ .get_buckets (fun _ => .resp ⟨200, "OK", []⟩ "OK") =
      .ok (.content "OK") ∧
    runOperation ⟨"p", "2"⟩ .get_buckets (fun _ => .resp ⟨404, "Not Found", []⟩ "") =
      .error (.gcsError 404 "Not Found") ∧
    runOperation ⟨"p", "2"⟩ .get_buckets (fun _ => .serverNotFound) =
      .error (.gcsError 404 "Server not found.") ∧
    runOperation ⟨"p", "2"⟩ (.get_object_metadata "b" "o")
        (fun _ => .resp ⟨200, "OK", []⟩ "body") =
      .ok (.envelope ⟨200, "OK", []⟩) := by
  refine ⟨?_, ?_, ?_, ?_⟩
  · exact (C2_interpret ⟨"p", "2"⟩ .get_buckets _ _ rfl).2.2.1 ⟨200, "OK", []⟩ "OK" rfl
      (by decide) rfl
  · exact (C2_interpret ⟨"p", "2"⟩ .get_buckets _ _ rfl).2.1 ⟨404, "Not Found", []⟩ "" rfl
      (by decide)
  · exact (C2_interpret ⟨"p", "2"⟩ .get_buckets _ _ rfl).1 rfl
  · exact (C2_interpret ⟨"p", "2"⟩ (.get_object_metadata "b" "o") _ _ rfl).2.2.2
      ⟨200, "OK", []⟩ "body" rfl (by decide) rfl

/-- C3: the two body-producing builders emit exactly the double-quoted UTF-8
XML declaration immediately followed by the opening tag of the root element,
with nothing in between, and _xml_tostring is that declaration prepended to
the Python 2 tostring output, which for utf-8 contains no declaration of its
own. -/
theorem C3_xml_body (lc : String) (origins methods response_headers : List String)
    (max_age_sec : PyVal) :
    (∃ t, get_location_constraint_body lc =
      "<?xml version=\"1.0\" encoding=\"UTF-8\"?>" ++ ("<CreateBucketConfiguration>" ++ t)) ∧
    (∃ t, get_cors_body origins methods response_headers max_age_sec =
      "<?xml version=\"1.0\" encoding=\"UTF-8\"?>" ++ ("<CorsConfig>" ++ t)) ∧
    (∀ root, xml_tostring root = xmlDecl ++ tostring_utf8 root) ∧
    xmlDecl = "<?xml version=\"1.0\" encoding=\"UTF-8\"?>" :=
  ⟨⟨_, rfl⟩, ⟨_, rfl⟩, fun _ => rfl, rfl⟩

theorem corsOriginsOf_corsTree (o m r : List String) (v : PyVal) :
    corsOriginsOf (corsTree o m r v) = some (originElems o) := rfl

theorem corsMethodsOf_corsTree (o m r : List String) (v : PyVal) :
    corsMethodsOf (corsTree o m r v) = some (methodElems m) := rfl

theorem corsResponseHeadersOf_corsTree (o m r : List String) (v : PyVal) :
    corsResponseHeadersOf (corsTree o m r v) = some (responseHeaderElems r) := rfl

theorem maxAgeTextOf_corsTree (o m r : List String) (v : PyVal) :
    maxAgeTextOf (corsTree o m r v) = some (maxAgeText v) := rfl

/-- C4: with an absent or empty origins list the emitted Origins element
holds exactly the single default origin; with a non-empty list every entry
is emitted stripped, a blank entry alone being replaced by the single
default; and the same per-element rule holds for methods and response
headers with their defaults. -/
theorem C4_cors_defaults (origins methods response_headers : Option (List String))
    (max_age_sec : Option PyVal) :
    ((origins = none ∨ origins = some []) →
      corsOriginsOf (set_bucket_cors_tree origins methods response_headers max_age_sec) =
        some [Elem.mk "Origin" (some default_origin) []]) ∧
    (∀ l, origins = some l → l ≠ [] →
      corsOriginsOf (set_bucket_cors_tree origins methods response_headers max_age_sec) =
        some (l.map fun o => Elem.mk "Origin"
          (some (if (pyStrip o).isEmpty then default_origin else pyStrip o)) [])) ∧
    ((methods = none ∨ methods = some []) →
      corsMethodsOf (set_bucket_cors_tree origins methods response_headers max_age_sec) =
        some [Elem.mk "Method" (some default_method) []]) ∧
    (∀ l, methods = some l → l ≠ [] →
      corsMethodsOf (set_bucket_cors_tree origins methods response_headers max_age_sec) =
        some (l.map fun m => Elem.mk "Method"
          (some (if (pyStrip m).isEmpty then default_method else pyStrip m)) [])) ∧
    ((response_headers = none ∨ response_headers = some []) →
      corsResponseHeadersOf (set_bucket_cors_tree origins methods response_headers max_age_sec) =
        some [Elem.mk "ResponseHeader" (some default_response_header) []]) ∧
    (∀ l, response_headers = some l → l ≠ [] →
      corsResponseHeadersOf (set_bucket_cors_tree origins methods response_headers max_age_sec) =
        some (l.map fun r => Elem.mk "ResponseHeader"
          (some (if (pyStrip r).isEmpty then default_response_header else pyStrip r)) [])) := by
  refine ⟨?_, ?_, ?_, ?_, ?_, ?_⟩
  · rintro (rfl | rfl) <;> rfl
  · rintro l rfl hl
    cases l with
    | nil => exact absurd rfl hl
    | cons a t => rfl
  · rintro (rfl | rfl) <;> rfl
  · rintro l rfl hl
    cases l with
    | nil => exact absurd rfl hl
    | cons a t => rfl
  · rintro (rfl | rfl) <;> rfl
  · rintro l rfl hl
    cases l with
    | nil => exact absurd rfl hl
    | cons a t => rfl

theorem C4_cors_defaults_witness :
    corsOriginsOf (set_bucket_cors_tree none none none none) =
      some [Elem.mk "Origin" (some default_origin) []] ∧
    corsOriginsOf (set_bucket_cors_tree (some ["http://a.com", " ", " b "]) none none none) =
      some [Elem.mk "Origin" (some "http://a.com") [], Elem.mk "Origin" (some "*") [],
        Elem.mk "Origin" (some "b") []] ∧
    corsMethodsOf (set_bucket_cors_tree none (some []) none none) =
      some [Elem.mk "Method" (some default_method) []] ∧
    corsMethodsOf (set_bucket_cors_tree none (some ["PUT", ""]) none none) =
      some [Elem.mk "Method" (some "PUT") [], Elem.mk "Method" (some "GET") []] ∧
    corsResponseHeadersOf (set_bucket_cors_tree none none (some []) none) =
      some [Elem.mk "ResponseHeader" (some default_response_header) []] ∧
    corsResponseHeadersOf (set_bucket_cors_tree none none (some ["X-Foo", "\t"]) none) =
      some [Elem.mk "ResponseHeader" (some "X-Foo") [],
        Elem.mk "ResponseHeader" (some "gcs-demo") []] := by
  refine ⟨(C4_cors_defaults none none none none).1 (Or.inl rfl), ?_,
    (C4_cors_defaults none (some []) none none).2.2.1 (Or.inr rfl), ?_,
    (C4_cors_defaults none none (some []) none).2.2.2.2.1 (Or.inr rfl), ?_⟩
  · rw [(C4_cors_defaults (some ["http://a.com", " ", " b "]) none none none).2.1 _ rfl
      (by decide)]
    rfl
  · rw [(C4_cors_defaults none (some ["PUT", ""]) none none).2.2.2.1 _ rfl (by decide)]
    rfl
  · rw [(C4_cors_defaults none none (some ["X-Foo", "\t"]) none).2.2.2.2.2 _ rfl (by decide)]
    rfl

/-- C5 amended: the MaxAgeSec element text is dispatched on the runtime type
of the value, not on its numeric value: percent-d integer formatting for an
int, percent-f fixed-point formatting for a float even when it is a whole
number, and verbatim pass-through for anything else. -/
theorem C5_max_age_by_type (origins methods response_headers : List String) (v : PyVal) :
    maxAgeTextOf (corsTree origins methods response_headers v) = some (maxAgeText v) ∧
    (∀ n : Int, maxAgeText (.int n) = toString n) ∧
    (∀ q : Rat, maxAgeText (.float q) = formatFixed6 q) ∧
    (∀ s : String, maxAgeText (.str s) = s) :=
  ⟨maxAgeTextOf_corsTree _ _ _ _, fun _ => rfl, fun _ => rfl, fun _ => rfl⟩

/-- C5 counterexample: the float 2 is a whole number, yet the emitted
MaxAgeSec text is the fixed-point 2.000000 and not the integer formatting 2
that a by-value dispatch prescribes. -/
theorem C5_counterexample :
    (2 : Rat).den = 1 ∧
    maxAgeTextOf (corsTree ["*"] ["GET"] ["gcs-demo"] (.float 2)) = some "2.000000" ∧
    specRenderMaxAge (.float 2) = "2" ∧
    "2.000000" ≠ specRenderMaxAge (.float 2) := by
  refine ⟨by decide, by decide, by decide, by decide⟩

/-- C10: a falsy max_age_sec argument, such as the int 0, the float 0 or the
empty string, is silently replaced by the construction-time default, so the
emitted MaxAgeSec text on these inputs is 1800 and an explicit zero can
never be emitted through the numeric argument path. -/
theorem C10_max_age_default (origins methods response_headers : Option (List String))
    (v : PyVal) :
    (pyTruthyVal v = false →
      maxAgeTextOf (set_bucket_cors_tree origins methods response_headers (some v)) =
        some "1800") ∧
    maxAgeTextOf (set_bucket_cors_tree origins methods response_headers (some (.int 0))) =
      some "1800" ∧
    maxAgeTextOf (set_bucket_cors_tree origins methods response_headers (some (.float 0))) =
      some "1800" ∧
    maxAgeTextOf (set_bucket_cors_tree origins methods response_headers (some (.str ""))) =
      some "1800" := by
  have key : ∀ w : PyVal, pyTruthyVal w = false →
      maxAgeTextOf (set_bucket_cors_tree origins methods response_headers (some w)) =
        some "1800" := by
    intro w hw
    unfold set_bucket_cors_tree
    rw [maxAgeTextOf_corsTree]
    show some (maxAgeText (maxAgeArg (some w))) = some "1800"
    unfold maxAgeArg
    dsimp only
    rw [hw]
    rfl
  exact ⟨key v, key _ (by decide), key _ (by decide), key _ (by decide)⟩

theorem C10_max_age_default_witness :
    maxAgeTextOf (set_bucket_cors_tree none none none (some (.int 0))) = some "1800" :=
  (C10_max_age_default none none none (.int 0)).1 (by decide)

theorem lastCharOf_mem {s : List Char} {c : Char} : lastCharOf s = some c → c ∈ s := by
  induction s with
  | nil => intro h; cases h
  | cons a t ih =>
    cases t with
    | nil =>
      intro h
      rw [Option.some.inj h]
      exact List.mem_singleton_self c
    | cons b t' =>
      intro h
      exact List.mem_cons_of_mem a (ih h)

theorem isNameChar_ne_newline {c : Char} (h : isNameChar c = true) : c ≠ '\n' :=
  fun hc => absurd (hc ▸ h) (by decide)

theorem isAlphanum_ne_newline {c : Char} (h : c.isAlphanum = true) : c ≠ '\n' :=
  fun hc => absurd (hc ▸ h) (by decide)

theorem specEndRule_last {b : String} (h : specEndRule b = true) :
    ∃ c, lastCharOf b.data = some c ∧ c.isAlphanum = true := by
  unfold specEndRule at h
  cases hl : lastCharOf b.data with
  | none => rw [hl] at h; cases h
  | some c => rw [hl] at h; exact ⟨c, rfl, h⟩

theorem ne_nil_of_start {b : String} (h : specStartRule b = true) :
    b.data.isEmpty = false := by
  unfold specStartRule at h
  cases hd : b.data with
  | nil => rw [hd] at h; cases h
  | cons c t => rfl

theorem ne_nil_of_end {b : String} (h : specEndRule b = true) :
    b.data.isEmpty = false := by
  obtain ⟨c, hc, -⟩ := specEndRule_last h
  cases hd : b.data with
  | nil => rw [hd] at hc; cases hc
  | cons a t => rfl

theorem stripNewline_of_chars {b : String} (hc : specCharsRule b = true) :
    (if lastCharOf b.data = some '\n' then b.data.dropLast else b.data) = b.data := by
  refine if_neg fun hh => ?_
  have hmem : '\n' ∈ b.data := lastCharOf_mem hh
  have hn := List.all_eq_true.mp hc _ hmem
  exact absurd hn (by decide)

theorem stripNewline_of_end {b : String} (he : specEndRule b = true) :
    (if lastCharOf b.data = some '\n' then b.data.dropLast else b.data) = b.data := by
  obtain ⟨c, hc, hca⟩ := specEndRule_last he
  refine if_neg fun hh => ?_
  rw [hc] at hh
  rw [Option.some.inj hh] at hca
  exact absurd hca (by decide)

theorem all_ne_newline {b : String} (hc : specCharsRule b = true) :
    b.data.all (fun c => c != '\n') = true := by
  rw [List.all_eq_true]
  intro c hcm
  have hn := List.all_eq_true.mp hc c hcm
  exact bne_iff_ne.mpr (isNameChar_ne_newline hn)

theorem reMatchNameChars_true {b : String} (hc : specCharsRule b = true)
    (hne : b.data.isEmpty = false) : reMatchNameChars b.data = true := by
  unfold reMatchNameChars
  dsimp only
  rw [stripNewline_of_chars hc, hne, show b.data.all isNameChar = true from hc]
  rfl

theorem reMatchNameChars_false {b : String} (hc : specCharsRule b = false)
    (he : specEndRule b = true) : reMatchNameChars b.data = false := by
  unfold reMatchNameChars
  dsimp only
  rw [stripNewline_of_end he, show b.data.all isNameChar = false from hc, Bool.and_false]

theorem reMatchEndAlnum_true {b : String} (hc : specCharsRule b = true)
    (hs : specStartRule b = true) (he : specEndRule b = true) :
    reMatchEndAlnum b.data = true := by
  unfold reMatchEndAlnum
  dsimp only
  rw [stripNewline_of_chars hc, ne_nil_of_start hs, all_ne_newline hc,
    show (match lastCharOf b.data with
          | some c => c.isAlphanum
          | none => false) = true from he]
  rfl

theorem reMatchEndAlnum_false {b : String} (hc : specCharsRule b = true)
    (he : specEndRule b = false) : reMatchEndAlnum b.data = false := by
  unfold reMatchEndAlnum
  dsimp only
  rw [stripNewline_of_chars hc,
    show (match lastCharOf b.data with
          | some c => c.isAlphanum
          | none => false) = false from he, Bool.and_false]

theorem lengthCheck_eq (b : String) :
    (b.length < 3 || 63 < b.length) = !specLengthRule b := by
  unfold specLengthRule
  rcases Nat.lt_or_ge b.length 3 with h | h
  · rw [decide_eq_true h, Bool.true_or, decide_eq_false (Nat.not_le.mpr h),
      Bool.false_and, Bool.not_false]
  · rcases Nat.lt_or_ge 63 b.length with h2 | h2
    · rw [decide_eq_true h2, Bool.or_true, decide_eq_false (Nat.not_le.mpr h2),
        Bool.and_false, Bool.not_false]
    · rw [decide_eq_false (Nat.not_lt.mpr h), decide_eq_false (Nat.not_lt.mpr h2),
        decide_eq_true h, decide_eq_true h2]
      rfl

theorem validateBucketName_none {b : String} (hc : specCharsRule b = true)
    (hs : specStartRule b = true) (he : specEndRule b = true)
    (hl : specLengthRule b = true) : validateBucketName b = none := by
  unfold validateBucketName
  rw [reMatchNameChars_true hc (ne_nil_of_start hs),
    show reMatchStartAlnum b.data = true from hs,
    reMatchEndAlnum_true hc hs he, lengthCheck_eq, hl]
  rfl

theorem validateBucketName_chars {b : String} (hc : specCharsRule b = false)
    (he : specEndRule b = true) : validateBucketName b = some msg_chars := by
  unfold validateBucketName
  rw [reMatchNameChars_false hc he]
  rfl

theorem validateBucketName_start {b : String} (hc : specCharsRule b = true)
    (hs : specStartRule b = false) (he : specEndRule b = true) :
    validateBucketName b = some msg_start := by
  unfold validateBucketName
  rw [reMatchNameChars_true hc (ne_nil_of_end he),
    show reMatchStartAlnum b.data = false from hs]
  rfl

theorem validateBucketName_end {b : String} (hc : specCharsRule b = true)
    (hs : specStartRule b = true) (he : specEndRule b = false) :
    validateBucketName b = some (msg_end ++ b) := by
  unfold validateBucketName
  rw [reMatchNameChars_true hc (ne_nil_of_start hs),
    show reMatchStartAlnum b.data = true from hs,
    reMatchEndAlnum_false hc he]
  rfl

theorem validateBucketName_length {b : String} (hc : specCharsRule b = true)
    (hs : specStartRule b = true) (he : specEndRule b = true)
    (hl : specLengthRule b = false) : validateBucketName b = some msg_length := by
  unfold validateBucketName
  rw [reMatchNameChars_true hc (ne_nil_of_start hs),
    show reMatchStartAlnum b.data = true from hs,
    reMatchEndAlnum_true hc hs he, lengthCheck_eq, hl]
  rfl

theorem operationRequest_insert_bucket (g : Gcs) (b : String) (acl lc : Option String) :
    operationRequest g (.insert_bucket b acl lc) =
      match validateBucketName b with
      | some m => .error m
      | none => .ok (apiRequestBuild g (opUrl (.insert_bucket b acl lc)) (some "PUT")
          (aclHeaders acl) (opBody (.insert_bucket b acl lc))) := rfl

/-- C1: a bucket name satisfying all four naming sub-rules makes
insert_bucket build its request without a validation error, and a name
violating exactly one sub-rule while satisfying the other three makes
insert_bucket fail, before any request exists, with the ValueError message
identifying that sub-rule. -/
theorem C1_validate (g : Gcs) (acl lc : Option String) (b : String) :
    (specCharsRule b = true → specStartRule b = true → specEndRule b = true →
      specLengthRule b = true →
      ∃ req, operationRequest g (.insert_bucket b acl lc) = .ok req) ∧
    (specCharsRule b = false → specStartRule b = true → specEndRule b = true →
      specLengthRule b = true →
      operationRequest g (.insert_bucket b acl lc) = .error msg_chars) ∧
    (specCharsRule b = true → specStartRule b = false → specEndRule b = true →
      specLengthRule b = true →
      operationRequest g (.insert_bucket b acl lc) = .error msg_start) ∧
    (specCharsRule b = true → specStartRule b = true → specEndRule b = false →
      specLengthRule b = true →
      operationRequest g (.insert_bucket b acl lc) = .error (msg_end ++ b)) ∧
    (specCharsRule b = true → specStartRule b = true → specEndRule b = true →
      specLengthRule b = false →
      operationRequest g (.insert_bucket b acl lc) = .error msg_length) := by
  refine ⟨fun hc hs he hl => ?_, fun hc hs he hl => ?_, fun hc hs he hl => ?_,
    fun hc hs he hl => ?_, fun hc hs he hl => ?_⟩
  · exact ⟨apiRequestBuild g (opUrl (.insert_bucket b acl lc)) (some "PUT")
      (aclHeaders acl) (opBody (.insert_bucket b acl lc)),
      by rw [operationRequest_insert_bucket, validateBucketName_none hc hs he hl]⟩
  · rw [operationRequest_insert_bucket, validateBucketName_chars hc he]
  · rw [operationRequest_insert_bucket, validateBucketName_start hc hs he]
  · rw [operationRequest_insert_bucket, validateBucketName_end hc hs he]
  · rw [operationRequest_insert_bucket, validateBucketName_length hc hs he hl]

theorem C1_validate_witness :
    (operationRequest ⟨"p", "2"⟩ (.insert_bucket "abc" none none)).isOk = true ∧
    operationRequest ⟨"p", "2"⟩ (.insert_bucket "ab#c" none none) = .error msg_chars ∧
    operationRequest ⟨"p", "2"⟩ (.insert_bucket "_abc" none none) = .error msg_start ∧
    operationRequest ⟨"p", "2"⟩ (.insert_bucket "abc-" none none) =
      .error (msg_end ++ "abc-") ∧
    operationRequest ⟨"p", "2"⟩ (.insert_bucket "ab" none none) = .error msg_length := by
  obtain ⟨req, hreq⟩ := (C1_validate ⟨"p", "2"⟩ none none "abc").1
    (by decide) (by decide) (by decide) (by decide)
  refine ⟨by rw [hreq]; rfl, ?_, ?_, ?_, ?_⟩
  · exact (C1_validate ⟨"p", "2"⟩ none none "ab#c").2.1
      (by decide) (by decide) (by decide) (by decide)
  · exact (C1_validate ⟨"p", "2"⟩ none none "_abc").2.2.1
      (by decide) (by decide) (by decide) (by decide)
  · exact (C1_validate ⟨"p", "2"⟩ none none "abc-").2.2.2.1
      (by decide) (by decide) (by decide) (by decide)
  · exact (C1_validate ⟨"p", "2"⟩ none none "ab").2.2.2.2
      (by decide) (by decide) (by decide) (by decide)

end GcsModel
